import Mathlib

/-
Verification of the dirty-page-tracking VFS wrapper
(src/SQLiteNET.Opfs/Native/src/vfs_tracking.c, vfs_tracking.h).

The C module keeps a process-wide registry (g_state) of FileTracker
records, one per normalized filename, each holding a growable bitmap of
dirty pages, and decorates an underlying SQLite VFS so that writes and
truncations mark pages dirty.

Shallow embedding conventions:
 - `uint32_t` values are Nat with explicit `% U32` where the C performs a
   32-bit cast or 32-bit arithmetic; `int64_t` is Int with C truncating
   division (Int.tdiv).
 - The bitmap (`uint32_t*` + word count) is a `List Nat` of 32-bit words;
   the NULL pointer corresponds to the empty list (in the C code the
   pointer is NULL exactly when bitmapSize is 0).
 - Heap mutation through a tracker pointer becomes an in-place update of
   the (first) list entry with that tracker's filename; trackers are
   keyed by their immutable normalized filename and never removed.
 - Results of the delegated real VFS (sqlite3_vfs_find,
   sqlite3_vfs_register, xOpen/xClose/xWrite/xTruncate return codes) and
   success of malloc/realloc are oracles passed as explicit arguments.
-/

/- SQLite status codes used by the tracking module (values from the
SQLite API; SQLITE_OK/ERROR/NOMEM also appear in
src/SqliteWasm.Data/native/sqlite3_stub.c). -/
def SQLITE_OK : Int := 0

def SQLITE_ERROR : Int := 1

def SQLITE_NOMEM : Int := 7

/-- Modelled from the spec: the spec's external interface names a distinct
`NotFound` status code ("fails with `NotFound` if it does not exist").
The SQLite API's status code of that name, SQLITE_NOTFOUND, has value 12;
it does not occur anywhere in the tracking source. -/
def SQLITE_NOTFOUND : Int := 12

/- DEFAULT_PAGE_SIZE from vfs_tracking.h -/
def DEFAULT_PAGE_SIZE : Nat := 4096

/- 2^32, the modulus of uint32_t arithmetic -/
def U32 : Nat := 4294967296

/- FileTracker from vfs_tracking.h (the `next` pointer is represented by
list order in the registry). -/
structure FileTracker where
  filename : String
  dirtyBitmap : List Nat
  bitmapSize : Nat
  totalPages : Nat
  pageSize : Nat
  isOpen : Bool
deriving DecidableEq

/- VfsTrackingState from vfs_tracking.h: `pRealVfs` only matters for the
initialized-check in vfs_tracking_init, so it is a Bool here. -/
structure VfsTrackingState where
  files : List FileTracker
  pRealVfs : Bool
  defaultPageSize : Nat
deriving DecidableEq

/- TrackingFile from vfs_tracking.c: the decorated handle's pTracker
pointer, represented by the tracker's (normalized, immutable) filename;
none models a NULL pTracker. -/
structure TrackingFile where
  pTracker : Option String
deriving DecidableEq

/- Environment for vfs_tracking_init: whether sqlite3_vfs_find returns a
VFS for the requested name, and what sqlite3_vfs_register returns. -/
structure InitEnv where
  findOk : Bool
  regRc : Int
deriving DecidableEq

def slashChar : Char := '/'

/- Filename normalization in vfs_tracking_get_file:
`(filename[0] == '/') ? filename + 1 : filename`. -/
def normalizeName (f : String) : String :=
  match f.data with
  | c :: rest => if c = slashChar then String.mk rest else f
  | [] => f

/- Reading bit i of the bitmap:
`dirtyBitmap[i / 32] & (1U << (i % 32))` (out-of-range words read as 0,
matching the NULL-pointer/empty-list convention). -/
def testBit (bm : List Nat) (i : Nat) : Bool :=
  Nat.testBit (bm.getD (i / 32) 0) (i % 32)

/- Setting bit i: `dirtyBitmap[i / 32] |= (1U << (i % 32))`. -/
def setBit (bm : List Nat) (i : Nat) : List Nat :=
  bm.set (i / 32) (bm.getD (i / 32) 0 ||| (1 <<< (i % 32)))

/- The marking loop `for (i = startPage; i <= endPage; i++)`. -/
def markRange (bm : List Nat) (s e : Nat) : List Nat :=
  (List.range' s (e + 1 - s)).foldl setBit bm

/- `startPage = (uint32_t)(offset / tracker->pageSize)` -/
def startPageOf (t : FileTracker) (offset : Int) : Nat :=
  (Int.emod (Int.tdiv offset (Int.ofNat t.pageSize)) (Int.ofNat U32)).toNat

/- `endPage = (uint32_t)((offset + amount - 1) / tracker->pageSize)` -/
def endPageOf (t : FileTracker) (offset amount : Int) : Nat :=
  (Int.emod (Int.tdiv (offset + amount - 1) (Int.ofNat t.pageSize)) (Int.ofNat U32)).toNat

/- `uint32_t requiredPages = endPage + 1` (32-bit addition) -/
def requiredPagesOf (t : FileTracker) (offset amount : Int) : Nat :=
  (endPageOf t offset amount + 1) % U32

/- `uint32_t newBitmapSize = (requiredPages + 31) / 32` (32-bit arithmetic) -/
def newBitmapSizeOf (t : FileTracker) (offset amount : Int) : Nat :=
  ((requiredPagesOf t offset amount + 31) % U32) / 32

/- vfs_tracking_mark_dirty acting on one tracker. `allocOk` tells whether
the realloc of the bitmap (when one is needed) succeeds; on realloc
failure the C function returns before changing anything. realloc keeps
the old words and the new words are memset to 0. -/
def markDirtyTracker (allocOk : Bool) (t : FileTracker) (offset amount : Int) : FileTracker :=
  if amount ≤ 0 then t
  else if requiredPagesOf t offset amount > t.totalPages ∧
      newBitmapSizeOf t offset amount > t.bitmapSize ∧ allocOk = false then t
  else
    let t1 : FileTracker :=
      if requiredPagesOf t offset amount > t.totalPages then
        if newBitmapSizeOf t offset amount > t.bitmapSize then
          { t with
            dirtyBitmap :=
              t.dirtyBitmap ++ List.replicate (newBitmapSizeOf t offset amount - t.bitmapSize) 0,
            bitmapSize := newBitmapSizeOf t offset amount,
            totalPages := requiredPagesOf t offset amount }
        else { t with totalPages := requiredPagesOf t offset amount }
      else t
    { t1 with
      dirtyBitmap := markRange t1.dirtyBitmap (startPageOf t offset) (endPageOf t offset amount) }

/- vfs_tracking_mark_dirty: `if (tracker == NULL || amount <= 0) return;` -/
def vfs_tracking_mark_dirty (allocOk : Bool) (tracker : Option FileTracker)
    (offset amount : Int) : Option FileTracker :=
  match tracker with
  | none => none
  | some t => some (markDirtyTracker allocOk t offset amount)

/- The linked-list search in vfs_tracking_get_file
(`strcmp(pFile->filename, normalizedName) == 0`). -/
def getTracker (s : VfsTrackingState) (n : String) : Option FileTracker :=
  s.files.find? (fun t => t.filename == n)

/- In-place mutation of the tracker node with the given filename (the C
code mutates the found node through its pointer). -/
def updateFirst (l : List FileTracker) (n : String) (g : FileTracker → FileTracker) :
    List FileTracker :=
  match l with
  | [] => []
  | t :: rest => if t.filename == n then g t :: rest else t :: updateFirst rest n g

def modifyTracker (s : VfsTrackingState) (n : String) (g : FileTracker → FileTracker) :
    VfsTrackingState :=
  { s with files := updateFirst s.files n g }

/- The tracker built by the calloc branch of vfs_tracking_get_file: all
fields zeroed, filename strdup'ed, pageSize from g_state.defaultPageSize. -/
def freshTracker (s : VfsTrackingState) (f : String) : FileTracker :=
  { filename := normalizeName f, dirtyBitmap := [], bitmapSize := 0,
    totalPages := 0, pageSize := s.defaultPageSize, isOpen := false }

/- vfs_tracking_get_file: NULL filename yields NULL; otherwise search for
the normalized name, and on a miss calloc a fresh tracker (zeroed, page
size from g_state.defaultPageSize) and push it at the head of the list. -/
def vfs_tracking_get_file (s : VfsTrackingState) (filename : Option String) :
    Option FileTracker × VfsTrackingState :=
  match filename with
  | none => (none, s)
  | some f =>
    match getTracker s (normalizeName f) with
    | some t => (some t, s)
    | none => (some (freshTracker s f), { s with files := freshTracker s f :: s.files })

/- The per-tracker part of vfs_tracking_reset_dirty:
`memset(tracker->dirtyBitmap, 0, tracker->bitmapSize * sizeof(uint32_t))`. -/
def clearTracker (t : FileTracker) : FileTracker :=
  { t with dirtyBitmap := List.replicate t.bitmapSize 0 }

/- vfs_tracking_reset_dirty -/
def vfs_tracking_reset_dirty (s : VfsTrackingState) (filename : Option String) :
    Int × VfsTrackingState :=
  match filename with
  | none => (SQLITE_ERROR, s)
  | some f =>
    match vfs_tracking_get_file s (some f) with
    | (none, s1) => (SQLITE_OK, s1)
    | (some t, s1) =>
      if t.dirtyBitmap = [] then (SQLITE_OK, s1)
      else (SQLITE_OK, modifyTracker s1 t.filename clearTracker)

/- The first counting loop of vfs_tracking_get_dirty_pages. -/
def countDirty (t : FileTracker) : Nat :=
  ((List.range t.totalPages).filter (fun i => testBit t.dirtyBitmap i)).length

/- The second (filling) loop of vfs_tracking_get_dirty_pages: ascending
page indices below totalPages whose bit is set. -/
def dirtyList (t : FileTracker) : List Nat :=
  (List.range t.totalPages).filter (fun i => testBit t.dirtyBitmap i)

/- vfs_tracking_get_dirty_pages. The out-parameters (pPageCount, ppPages)
become the Nat and List Nat results; the pPageCount/ppPages NULL checks
are binding-layer concerns and are dropped. `allocOk` tells whether the
malloc of the result array succeeds. -/
def vfs_tracking_get_dirty_pages (allocOk : Bool) (s : VfsTrackingState)
    (filename : Option String) : (Int × Nat × List Nat) × VfsTrackingState :=
  match filename with
  | none => ((SQLITE_ERROR, 0, []), s)
  | some f =>
    match vfs_tracking_get_file s (some f) with
    | (none, s1) => ((SQLITE_OK, 0, []), s1)
    | (some t, s1) =>
      if t.dirtyBitmap = [] then ((SQLITE_OK, 0, []), s1)
      else if countDirty t = 0 then ((SQLITE_OK, 0, []), s1)
      else if allocOk = false then ((SQLITE_NOMEM, 0, []), s1)
      else ((SQLITE_OK, countDirty t, dirtyList t), s1)

/- vfs_tracking_init. The C code sets g_state (pRealVfs, files,
defaultPageSize) before calling sqlite3_vfs_register, and keeps that
state even when registration fails. -/
def vfs_tracking_init (env : InitEnv) (s : VfsTrackingState) (pageSize : Nat) :
    Int × VfsTrackingState :=
  if s.pRealVfs then (SQLITE_OK, s)
  else if env.findOk = false then (SQLITE_ERROR, s)
  else
    let dps : Nat := if pageSize > 0 then pageSize else DEFAULT_PAGE_SIZE
    let s1 : VfsTrackingState := { files := [], pRealVfs := true, defaultPageSize := dps }
    if env.regRc = SQLITE_OK then (SQLITE_OK, s1) else (env.regRc, s1)

/- trackingOpen: delegate to the real xOpen (result `realRc`); only on
success associate a tracker (for a non-NULL name) and set isOpen = 1. -/
def trackingOpen (realRc : Int) (s : VfsTrackingState) (zName : Option String) :
    (Int × TrackingFile) × VfsTrackingState :=
  if realRc = SQLITE_OK then
    match zName with
    | some f =>
      match vfs_tracking_get_file s (some f) with
      | (some t, s1) =>
        ((realRc, { pTracker := some t.filename }),
          modifyTracker s1 t.filename (fun u => { u with isOpen := true }))
      | (none, s1) => ((realRc, { pTracker := none }), s1)
    | none => ((realRc, { pTracker := none }), s)
  else ((realRc, { pTracker := none }), s)

/- fileClose: delegate to the real xClose; regardless of its result clear
isOpen on the associated tracker. -/
def fileClose (realRc : Int) (s : VfsTrackingState) (h : TrackingFile) :
    Int × VfsTrackingState :=
  match h.pTracker with
  | some n => (realRc, modifyTracker s n (fun u => { u with isOpen := false }))
  | none => (realRc, s)

/- fileWrite: delegate to the real xWrite; on success mark the written
byte range dirty (when a tracker is associated). -/
def fileWrite (realRc : Int) (allocOk : Bool) (s : VfsTrackingState) (h : TrackingFile)
    (amount offset : Int) : Int × VfsTrackingState :=
  if realRc = SQLITE_OK then
    match h.pTracker with
    | some n => (realRc, modifyTracker s n (fun u => markDirtyTracker allocOk u offset amount))
    | none => (realRc, s)
  else (realRc, s)

/- fileTruncate: delegate to the real xTruncate; on success mark one byte
at the truncation point dirty (when a tracker is associated). -/
def fileTruncate (realRc : Int) (allocOk : Bool) (s : VfsTrackingState) (h : TrackingFile)
    (size : Int) : Int × VfsTrackingState :=
  if realRc = SQLITE_OK then
    match h.pTracker with
    | some n => (realRc, modifyTracker s n (fun u => markDirtyTracker allocOk u size 1))
    | none => (realRc, s)
  else (realRc, s)

/- Well-formedness of a reachable tracker: the stored word count is the
bitmap's length, the bitmap covers totalPages, and the page size is
positive (trackers are created with the positive default page size). -/
def WF (t : FileTracker) : Prop :=
  t.bitmapSize = t.dirtyBitmap.length ∧ t.totalPages ≤ 32 * t.bitmapSize ∧ 0 < t.pageSize

instance (t : FileTracker) : Decidable (WF t) := by
  unfold WF; infer_instance

/- ------------------------------------------------------------------ -/
/- Concrete states used by counterexamples and witnesses               -/
/- ------------------------------------------------------------------ -/

def exName : String := "db.sqlite"

def exSlashName : String := "/db.sqlite"

def exOtherName : String := "other.sqlite"

/- a freshly created tracker for exName with the default page size -/
def exTrk : FileTracker :=
  { filename := exName, dirtyBitmap := [], bitmapSize := 0, totalPages := 0,
    pageSize := 4096, isOpen := false }

/- a tracker for exName whose page 0 is dirty -/
def exTrkDirty : FileTracker :=
  { filename := exName, dirtyBitmap := [1], bitmapSize := 1, totalPages := 1,
    pageSize := 4096, isOpen := false }

/- a tracker for exOtherName with some state, used to observe isolation -/
def exTrkOther : FileTracker :=
  { filename := exOtherName, dirtyBitmap := [5], bitmapSize := 1, totalPages := 3,
    pageSize := 4096, isOpen := true }

def exStEmpty : VfsTrackingState :=
  { files := [], pRealVfs := true, defaultPageSize := 4096 }

def exStFresh : VfsTrackingState :=
  { files := [exTrk], pRealVfs := true, defaultPageSize := 4096 }

def exStDirty : VfsTrackingState :=
  { files := [exTrkDirty, exTrkOther], pRealVfs := true, defaultPageSize := 4096 }

def exStUninit : VfsTrackingState :=
  { files := [], pRealVfs := false, defaultPageSize := 0 }

def exEnvNoFind : InitEnv := { findOk := false, regRc := 0 }

/- offset 2^44 = 17592186044416: with page size 4096 the mathematical
page index is 2^32 = 4294967296, which does not fit in uint32_t -/
def exBigOffset : Int := 17592186044416

def exBigPage : Nat := 4294967296

/- ------------------------------------------------------------------ -/
/- Helper lemmas about the bitmap representation                       -/
/- ------------------------------------------------------------------ -/

lemma getD_set_self (l : List Nat) (i a : Nat) (h : i < l.length) :
    (l.set i a).getD i 0 = a := by
  rw [List.getD_eq_getD_get?, List.get?_set_eq_of_lt a h]
  rfl

lemma getD_set_ne (l : List Nat) {i j : Nat} (a : Nat) (h : i ≠ j) :
    (l.set i a).getD j 0 = l.getD j 0 := by
  rw [List.getD_eq_getD_get?, List.get?_set_ne a l h, ← List.getD_eq_getD_get?]

lemma getD_oob (l : List Nat) {i : Nat} (h : l.length ≤ i) : l.getD i 0 = 0 :=
  List.getD_eq_default l 0 h

lemma getD_replicate_zero (k i : Nat) : (List.replicate k 0).getD i 0 = 0 := by
  rcases Nat.lt_or_ge i k with h | h
  · rw [List.getD_eq_getElem _ _ (by simpa using h)]
    simp
  · exact List.getD_eq_default _ _ (by simpa using h)

lemma testBit_append_replicate (bm : List Nat) (k i : Nat) :
    testBit (bm ++ List.replicate k 0) i = testBit bm i := by
  unfold testBit
  rcases Nat.lt_or_ge (i / 32) bm.length with h | h
  · rw [List.getD_append _ _ _ _ h]
  · rw [List.getD_append_right _ _ _ _ h, getD_oob bm h, getD_replicate_zero]

lemma length_setBit (bm : List Nat) (k : Nat) : (setBit bm k).length = bm.length := by
  simp [setBit]

lemma testBit_setBit (bm : List Nat) (k : Nat) (hk : k / 32 < bm.length) (i : Nat) :
    (testBit (setBit bm k) i = true) ↔ (testBit bm i = true ∨ i = k) := by
  unfold testBit setBit
  by_cases hw : i / 32 = k / 32
  · rw [hw, getD_set_self _ _ _ hk, Nat.testBit_lor]
    by_cases hm : i % 32 = k % 32
    · have hik : i = k := by omega
      subst hik
      rw [Nat.shiftLeft_eq, one_mul, Nat.testBit_two_pow_self]
      simp
    · have hik : i ≠ k := by omega
      rw [Nat.shiftLeft_eq, one_mul, Nat.testBit_two_pow_of_ne (Ne.symm hm)]
      simp [hik]
  · have hik : i ≠ k := by omega
    rw [getD_set_ne _ _ (Ne.symm hw)]
    simp [hik]

lemma testBit_foldl_setBit (n : Nat) : ∀ (s : Nat) (bm : List Nat),
    (∀ j, s ≤ j → j < s + n → j / 32 < bm.length) →
    ∀ i, (testBit ((List.range' s n).foldl setBit bm) i = true) ↔
      (testBit bm i = true ∨ (s ≤ i ∧ i < s + n)) := by
  induction n with
  | zero =>
    intro s bm _ i
    rw [List.range'_zero, List.foldl_nil]
    constructor
    · exact Or.inl
    · rintro (h | ⟨h1, h2⟩)
      · exact h
      · omega
  | succ m ih =>
    intro s bm hcap i
    rw [List.range'_succ, List.foldl_cons]
    have hcap' : ∀ j, s + 1 ≤ j → j < (s + 1) + m → j / 32 < (setBit bm s).length := by
      intro j h1 h2
      rw [length_setBit]
      exact hcap j (by omega) (by omega)
    rw [ih (s + 1) (setBit bm s) hcap' i,
      testBit_setBit bm s (hcap s (Nat.le_refl s) (by omega)) i]
    by_cases hP : testBit bm i = true
    · simp [hP]
    · simp [hP]
      omega

lemma testBit_markRange (bm : List Nat) (s e : Nat) (hse : s ≤ e)
    (hcap : ∀ j, s ≤ j → j ≤ e → j / 32 < bm.length) (i : Nat) :
    (testBit (markRange bm s e) i = true) ↔
      (testBit bm i = true ∨ (s ≤ i ∧ i ≤ e)) := by
  unfold markRange
  rw [testBit_foldl_setBit (e + 1 - s) s bm (fun j h1 h2 => hcap j h1 (by omega)) i]
  by_cases hP : testBit bm i = true
  · simp [hP]
  · simp [hP]
    omega

/- ------------------------------------------------------------------ -/
/- C arithmetic: int64 truncating division and uint32 casts on        -/
/- nonnegative inputs reduce to Nat arithmetic                         -/
/- ------------------------------------------------------------------ -/

lemma tdiv_natCast (a b : Nat) : Int.tdiv (a : Int) (b : Int) = ((a / b : Nat) : Int) := rfl

lemma emod_natCast (a b : Nat) : Int.emod (a : Int) (b : Int) = ((a % b : Nat) : Int) := rfl

lemma ofNat_eq_cast (n : Nat) : Int.ofNat n = (n : Int) := rfl

lemma startPageOf_natCast (t : FileTracker) (o : Nat) :
    startPageOf t ((o : Nat) : Int) = o / t.pageSize % U32 := by
  unfold startPageOf
  rw [ofNat_eq_cast, ofNat_eq_cast, tdiv_natCast, emod_natCast]
  rfl

lemma endPageOf_natCast (t : FileTracker) (o a : Nat) (ha : 0 < a) :
    endPageOf t ((o : Nat) : Int) ((a : Nat) : Int) = (o + a - 1) / t.pageSize % U32 := by
  unfold endPageOf
  have h1 : (o : Int) + (a : Int) - 1 = ((o + a - 1 : Nat) : Int) := by omega
  rw [h1, ofNat_eq_cast, ofNat_eq_cast, tdiv_natCast, emod_natCast]
  rfl

/- The central behavioural lemma of vfs_tracking_mark_dirty: for a
well-formed tracker, a nonnegative offset, a positive amount and page
indices safely below the uint32_t range (no 32-bit truncation and no
out-of-bounds bit writes), the marked bitmap reads as the old bitmap
plus exactly the byte range's pages. -/
lemma markDirtyTracker_testBit (t : FileTracker) (offset amount : Int)
    (hwf : WF t) (ho : 0 ≤ offset) (ha : 0 < amount)
    (hb : (offset + amount - 1).toNat / t.pageSize + 32 < U32) (i : Nat) :
    (testBit (markDirtyTracker true t offset amount).dirtyBitmap i = true) ↔
      (testBit t.dirtyBitmap i = true ∨
        (offset.toNat / t.pageSize ≤ i ∧
          i ≤ (offset + amount - 1).toNat / t.pageSize)) := by
  obtain ⟨o, rfl⟩ : ∃ o : Nat, offset = (o : Int) :=
    ⟨offset.toNat, (Int.toNat_of_nonneg ho).symm⟩
  obtain ⟨a, rfl⟩ : ∃ a : Nat, amount = (a : Int) :=
    ⟨amount.toNat, (Int.toNat_of_nonneg (le_of_lt ha)).symm⟩
  have ha' : 0 < a := by omega
  have hlen : t.bitmapSize = t.dirtyBitmap.length := hwf.1
  have hcov : t.totalPages ≤ 32 * t.bitmapSize := hwf.2.1
  have htoN : ((o : Int) + (a : Int) - 1).toNat = o + a - 1 := by omega
  have hoN : ((o : Int)).toNat = o := rfl
  rw [htoN] at hb
  rw [htoN, hoN]
  have hse : o / t.pageSize ≤ (o + a - 1) / t.pageSize :=
    Nat.div_le_div_right (by omega)
  have heU : (o + a - 1) / t.pageSize + 32 < U32 := hb
  have hs1 : startPageOf t ((o : Nat) : Int) = o / t.pageSize := by
    rw [startPageOf_natCast]
    exact Nat.mod_eq_of_lt (by omega)
  have he1 : endPageOf t ((o : Nat) : Int) ((a : Nat) : Int) = (o + a - 1) / t.pageSize := by
    rw [endPageOf_natCast t o a ha']
    exact Nat.mod_eq_of_lt (by omega)
  have hr1 : requiredPagesOf t ((o : Nat) : Int) ((a : Nat) : Int) =
      (o + a - 1) / t.pageSize + 1 := by
    unfold requiredPagesOf
    rw [he1]
    exact Nat.mod_eq_of_lt (by omega)
  have hn1 : newBitmapSizeOf t ((o : Nat) : Int) ((a : Nat) : Int) =
      ((o + a - 1) / t.pageSize + 32) / 32 := by
    unfold newBitmapSizeOf
    rw [hr1, Nat.mod_eq_of_lt (by omega)]
  set sN := o / t.pageSize with hsN
  set eN := (o + a - 1) / t.pageSize with heN
  unfold markDirtyTracker
  rw [if_neg (by omega : ¬ ((a : Nat) : Int) ≤ 0)]
  rw [if_neg (by simp : ¬ (requiredPagesOf t ((o : Nat) : Int) ((a : Nat) : Int) > t.totalPages ∧
    newBitmapSizeOf t ((o : Nat) : Int) ((a : Nat) : Int) > t.bitmapSize ∧ true = false))]
  rw [hs1, he1, hr1, hn1]
  by_cases hg : eN + 1 > t.totalPages
  · by_cases hal : (eN + 32) / 32 > t.bitmapSize
    · rw [if_pos hg, if_pos hal]
      have hlen2 : (t.dirtyBitmap ++ List.replicate ((eN + 32) / 32 - t.bitmapSize) 0).length =
          (eN + 32) / 32 := by
        rw [List.length_append, List.length_replicate]
        omega
      rw [testBit_markRange _ sN eN hse (by intro j h1 h2; rw [hlen2]; omega) i,
        testBit_append_replicate]
    · rw [if_pos hg, if_neg hal]
      rw [testBit_markRange _ sN eN hse
        (by intro j h1 h2; show j / 32 < t.dirtyBitmap.length; omega) i]
  · rw [if_neg hg]
    rw [testBit_markRange _ sN eN hse (by intro j h1 h2; omega) i]

/- ------------------------------------------------------------------ -/
/- Helper lemmas about the registry                                    -/
/- ------------------------------------------------------------------ -/

lemma find_updateFirst_self (l : List FileTracker) (n : String)
    (g : FileTracker → FileTracker) (hg : ∀ u, (g u).filename = u.filename) :
    (updateFirst l n g).find? (fun t => t.filename == n) =
      Option.map g (l.find? (fun t => t.filename == n)) := by
  induction l with
  | nil => rfl
  | cons t rest ih =>
    by_cases h : t.filename = n
    · have hb : (t.filename == n) = true := beq_iff_eq.mpr h
      have hb2 : ((g t).filename == n) = true := by rw [hg]; exact hb
      unfold updateFirst
      rw [if_pos hb, List.find?_cons, List.find?_cons, hb, hb2]
      rfl
    · have hb : (t.filename == n) = false := by
        simpa using h
      unfold updateFirst
      rw [if_neg (by simp [hb]), List.find?_cons, List.find?_cons, hb, ih]

lemma find_updateFirst_ne (l : List FileTracker) (n m : String)
    (g : FileTracker → FileTracker) (hg : ∀ u, (g u).filename = u.filename) (hm : m ≠ n) :
    (updateFirst l n g).find? (fun t => t.filename == m) =
      l.find? (fun t => t.filename == m) := by
  induction l with
  | nil => rfl
  | cons t rest ih =>
    by_cases h : t.filename = n
    · have hb : (t.filename == n) = true := beq_iff_eq.mpr h
      have hm1 : (t.filename == m) = false := by
        simp [h]
        exact fun hh => hm hh.symm
      have hm2 : ((g t).filename == m) = false := by rw [hg]; exact hm1
      unfold updateFirst
      rw [if_pos hb, List.find?_cons, List.find?_cons, hm1, hm2]
    · have hb : (t.filename == n) = false := by simpa using h
      unfold updateFirst
      rw [if_neg (by simp [hb]), List.find?_cons, List.find?_cons, ih]

lemma getTracker_modify_self (s : VfsTrackingState) (n : String)
    (g : FileTracker → FileTracker) (hg : ∀ u, (g u).filename = u.filename) :
    getTracker (modifyTracker s n g) n = Option.map g (getTracker s n) :=
  find_updateFirst_self s.files n g hg

lemma getTracker_modify_ne (s : VfsTrackingState) (n m : String)
    (g : FileTracker → FileTracker) (hg : ∀ u, (g u).filename = u.filename) (hm : m ≠ n) :
    getTracker (modifyTracker s n g) m = getTracker s m :=
  find_updateFirst_ne s.files n m g hg hm

lemma getTracker_filename {s : VfsTrackingState} {n : String} {t : FileTracker}
    (h : getTracker s n = some t) : t.filename = n := by
  have := List.find?_some h
  simpa using this

lemma get_file_found (s : VfsTrackingState) (f : String) (t : FileTracker)
    (h : getTracker s (normalizeName f) = some t) :
    vfs_tracking_get_file s (some f) = (some t, s) := by
  simp [vfs_tracking_get_file, h]

lemma get_file_missing (s : VfsTrackingState) (f : String)
    (h : getTracker s (normalizeName f) = none) :
    vfs_tracking_get_file s (some f) =
      (some (freshTracker s f), { s with files := freshTracker s f :: s.files }) := by
  simp [vfs_tracking_get_file, h]

lemma getTracker_cons_fresh (s : VfsTrackingState) (f : String) :
    getTracker { s with files := freshTracker s f :: s.files } (normalizeName f) =
      some (freshTracker s f) := by
  show List.find? _ (freshTracker s f :: s.files) = some (freshTracker s f)
  rw [List.find?_cons]
  simp [freshTracker]

lemma getTracker_cons_ne (s : VfsTrackingState) (f : String) (m : String)
    (hm : m ≠ normalizeName f) :
    getTracker { s with files := freshTracker s f :: s.files } m = getTracker s m := by
  show List.find? _ (freshTracker s f :: s.files) = _
  rw [List.find?_cons]
  have hb : ((freshTracker s f).filename == m) = false := by
    simp [freshTracker]
    exact fun hh => hm hh.symm
  rw [hb]
  rfl

/- vfs_tracking_get_file with a non-NULL filename always yields a
tracker whose filename is the normalized input, and that tracker is
findable in the resulting state. -/
lemma get_file_spec (s : VfsTrackingState) (f : String) :
    ∃ t : FileTracker, (vfs_tracking_get_file s (some f)).1 = some t ∧
      t.filename = normalizeName f ∧
      getTracker (vfs_tracking_get_file s (some f)).2 (normalizeName f) = some t := by
  cases h : getTracker s (normalizeName f) with
  | some t =>
    rw [get_file_found s f t h]
    exact ⟨t, rfl, getTracker_filename h, h⟩
  | none =>
    rw [get_file_missing s f h]
    exact ⟨freshTracker s f, rfl, rfl, getTracker_cons_fresh s f⟩

lemma testBit_nil (i : Nat) : testBit [] i = false := by
  unfold testBit
  simp [Nat.zero_testBit]

lemma testBit_clearTracker (t : FileTracker) (i : Nat) :
    testBit (clearTracker t).dirtyBitmap i = false := by
  show testBit (List.replicate t.bitmapSize 0) i = false
  unfold testBit
  rw [getD_replicate_zero]
  exact Nat.zero_testBit _

lemma countDirty_zero_of_allFalse (t : FileTracker)
    (h : ∀ i, testBit t.dirtyBitmap i = false) : countDirty t = 0 := by
  unfold countDirty
  rw [List.length_eq_zero, List.filter_eq_nil]
  intro a _
  simp [h a]

/- getDirtyPages on a tracker with no set bit yields (OK, 0, []). -/
lemma get_dirty_pages_empty (a : Bool) (s : VfsTrackingState) (f : String) (t : FileTracker)
    (hfind : getTracker s (normalizeName f) = some t)
    (h : ∀ i, testBit t.dirtyBitmap i = false) :
    (vfs_tracking_get_dirty_pages a s (some f)).1 = (SQLITE_OK, 0, []) := by
  have hg := get_file_found s f t hfind
  by_cases hbm : t.dirtyBitmap = []
  · simp [vfs_tracking_get_dirty_pages, hg, hbm]
  · have hc : countDirty t = 0 := countDirty_zero_of_allFalse t h
    simp [vfs_tracking_get_dirty_pages, hg, hbm, hc]

/- getDirtyPages only changes the registry through its embedded
vfs_tracking_get_file call. -/
lemma get_dirty_pages_snd (a : Bool) (s : VfsTrackingState) (f : String) :
    (vfs_tracking_get_dirty_pages a s (some f)).2 = (vfs_tracking_get_file s (some f)).2 := by
  rcases hgf : vfs_tracking_get_file s (some f) with ⟨fst, snd⟩
  cases fst with
  | none => simp [vfs_tracking_get_dirty_pages, hgf]
  | some t =>
    by_cases h1 : t.dirtyBitmap = []
    · simp [vfs_tracking_get_dirty_pages, hgf, h1]
    · by_cases h2 : countDirty t = 0
      · simp [vfs_tracking_get_dirty_pages, hgf, h1, h2]
      · by_cases h3 : a = false
        · simp [vfs_tracking_get_dirty_pages, hgf, h1, h2, h3]
        · simp [vfs_tracking_get_dirty_pages, hgf, h1, h2, h3]

lemma getTracker_get_file_ne (s : VfsTrackingState) (f m : String)
    (hm : m ≠ normalizeName f) :
    getTracker (vfs_tracking_get_file s (some f)).2 m = getTracker s m := by
  cases hfind : getTracker s (normalizeName f) with
  | some t => rw [get_file_found s f t hfind]
  | none =>
    rw [get_file_missing s f hfind]
    exact getTracker_cons_ne s f m hm

lemma markDirtyTracker_filename (b : Bool) (t : FileTracker) (offset amount : Int) :
    (markDirtyTracker b t offset amount).filename = t.filename := by
  unfold markDirtyTracker
  split_ifs <;> rfl

/- ------------------------------------------------------------------ -/
/- Claim theorems                                                      -/
/- ------------------------------------------------------------------ -/

/-- C1 (counterexample): contrary to the claim, when the base backend
name does not resolve vfs_tracking_init returns the generic error code
SQLITE_ERROR (1), not the SQLITE_NOTFOUND status code (12). -/
theorem init_notfound_counterexample :
    (vfs_tracking_init exEnvNoFind exStUninit 4096).1 = SQLITE_ERROR ∧
      SQLITE_ERROR ≠ SQLITE_NOTFOUND := by
  constructor
  · decide
  · decide

/-- C1 (amended): when the registry is not yet initialized,
vfs_tracking_init returns the generic SQLITE_ERROR code (not a distinct
NotFound code) whenever the named base VFS does not resolve; when it
does resolve, the result is SQLITE_OK or the code returned by the failed
sqlite3_vfs_register call, never any other code. -/
theorem init_status_codes (env : InitEnv) (s : VfsTrackingState) (pageSize : Nat)
    (h : s.pRealVfs = false) :
    (env.findOk = false → (vfs_tracking_init env s pageSize).1 = SQLITE_ERROR) ∧
    (env.findOk = true → (vfs_tracking_init env s pageSize).1 = SQLITE_OK ∨
      (vfs_tracking_init env s pageSize).1 = env.regRc) := by
  constructor
  · intro hf
    simp [vfs_tracking_init, h, hf]
  · intro hf
    by_cases hr : env.regRc = SQLITE_OK
    · left
      simp [vfs_tracking_init, h, hf, hr]
    · right
      simp [vfs_tracking_init, h, hf, hr]

/-- C1 (witness): the amended statement at a concrete uninitialized
state with an unresolvable backend name. -/
theorem init_status_codes_witness :
    (vfs_tracking_init exEnvNoFind exStUninit 4096).1 = SQLITE_ERROR :=
  (init_status_codes exEnvNoFind exStUninit 4096 rfl).1 rfl

/-- C2 (counterexample): with page size 4096, offset 2^44 (a legal int64
byte offset) and length 1, the claimed interval is the single page
floor(2^44/4096) = 2^32, but the code casts the page index to uint32_t:
page 2^32 stays clean and page 0 — outside the claimed interval —
becomes dirty. -/
theorem markDirty_overflow_counterexample :
    testBit (markDirtyTracker true exTrk exBigOffset 1).dirtyBitmap exBigPage = false ∧
    testBit (markDirtyTracker true exTrk exBigOffset 1).dirtyBitmap 0 = true ∧
    exBigOffset.toNat / exTrk.pageSize = exBigPage ∧ 0 < exBigPage := by
  refine ⟨?_, ?_, ?_, ?_⟩
  · decide
  · decide
  · decide
  · decide

/-- C2 (amended): for a well-formed tracker, every offset ≥ 0 and length
> 0 whose end page stays safely inside uint32_t (endPage + 32 < 2^32,
which the counterexample's offset violates) and with any needed bitmap
allocation succeeding, markDirty makes dirty exactly the pages in
[floor(offset/pageSize), floor((offset+length-1)/pageSize)]: afterwards
a page reads dirty iff it was dirty before or lies in that interval; for
length ≤ 0 the tracker is returned unchanged, and a NULL tracker stays
NULL. -/
theorem markDirty_marks_range :
    (∀ (t : FileTracker) (offset amount : Int), WF t → 0 ≤ offset → 0 < amount →
      (offset + amount - 1).toNat / t.pageSize + 32 < U32 →
      ∀ i : Nat,
        (testBit (markDirtyTracker true t offset amount).dirtyBitmap i = true) ↔
          (testBit t.dirtyBitmap i = true ∨
            (offset.toNat / t.pageSize ≤ i ∧
              i ≤ (offset + amount - 1).toNat / t.pageSize))) ∧
    (∀ (b : Bool) (t : FileTracker) (offset amount : Int), amount ≤ 0 →
      markDirtyTracker b t offset amount = t) ∧
    (∀ (b : Bool) (offset amount : Int),
      vfs_tracking_mark_dirty b none offset amount = none) := by
  refine ⟨fun t offset amount hwf ho ha hb i =>
    markDirtyTracker_testBit t offset amount hwf ho ha hb i, ?_, ?_⟩
  · intro b t offset amount hle
    unfold markDirtyTracker
    rw [if_pos hle]
  · intro b offset amount
    rfl

/-- C2 (witness): the amended statement at page size 4096, a write of 20
bytes at offset 4090 (page 1 lies in the marked interval), and a
length-0 no-op. -/
theorem markDirty_marks_range_witness :
    ((testBit (markDirtyTracker true exTrk 4090 20).dirtyBitmap 1 = true) ↔
      (testBit exTrk.dirtyBitmap 1 = true ∨
        ((4090 : Int).toNat / exTrk.pageSize ≤ 1 ∧
          1 ≤ ((4090 : Int) + 20 - 1).toNat / exTrk.pageSize))) ∧
    markDirtyTracker false exTrk 7 0 = exTrk := by
  constructor
  · exact markDirty_marks_range.1 exTrk 4090 20 (by decide) (by decide) (by decide)
      (by decide) 1
  · exact markDirty_marks_range.2.1 false exTrk 7 0 (by decide)

/-- C3 (counterexample): contrary to the claim that getDirtyPages
returns OK for every non-null filename, when the allocation of the
result array fails while dirty pages exist the code returns
SQLITE_NOMEM. -/
theorem getDirtyPages_nomem_counterexample :
    (vfs_tracking_get_dirty_pages false exStDirty (some exName)).1.1 = SQLITE_NOMEM ∧
      SQLITE_NOMEM ≠ SQLITE_OK := by
  constructor
  · decide
  · decide

/-- C3 (amended): for every non-null filename, when the result-array
allocation succeeds getDirtyPages returns OK together with exactly the
page indices whose bit is set within [0, totalPages) of that filename's
tracker, in strictly ascending zero-based order, the returned page count
being the length of that sequence (so in particular the sequence is
empty when the tracker has no bitmap or no bit is set). -/
theorem getDirtyPages_spec (s : VfsTrackingState) (f : String) :
    ∃ t : FileTracker, (vfs_tracking_get_file s (some f)).1 = some t ∧
      (vfs_tracking_get_dirty_pages true s (some f)).1.1 = SQLITE_OK ∧
      (vfs_tracking_get_dirty_pages true s (some f)).1.2.1 =
        ((vfs_tracking_get_dirty_pages true s (some f)).1.2.2).length ∧
      List.Pairwise (· < ·) (vfs_tracking_get_dirty_pages true s (some f)).1.2.2 ∧
      (∀ i : Nat, i ∈ (vfs_tracking_get_dirty_pages true s (some f)).1.2.2 ↔
        (i < t.totalPages ∧ testBit t.dirtyBitmap i = true)) := by
  cases hfind : getTracker s (normalizeName f) with
  | some t =>
    have hg : vfs_tracking_get_file s (some f) = (some t, s) := get_file_found s f t hfind
    refine ⟨t, by rw [hg], ?_⟩
    by_cases hbm : t.dirtyBitmap = []
    · have hmain : vfs_tracking_get_dirty_pages true s (some f) = ((SQLITE_OK, 0, []), s) := by
        simp [vfs_tracking_get_dirty_pages, hg, hbm]
      rw [hmain]
      refine ⟨rfl, rfl, List.Pairwise.nil, ?_⟩
      intro i
      rw [hbm]
      simp [testBit_nil]
    · by_cases hc : countDirty t = 0
      · have hmain : vfs_tracking_get_dirty_pages true s (some f) = ((SQLITE_OK, 0, []), s) := by
          simp [vfs_tracking_get_dirty_pages, hg, hbm, hc]
        rw [hmain]
        have hnil : (List.range t.totalPages).filter (fun i => testBit t.dirtyBitmap i) = [] :=
          List.length_eq_zero.mp hc
        refine ⟨rfl, rfl, List.Pairwise.nil, ?_⟩
        intro i
        constructor
        · intro hh
          exact absurd hh (List.not_mem_nil i)
        · rintro ⟨h1, h2⟩
          have hmem : i ∈ (List.range t.totalPages).filter (fun i => testBit t.dirtyBitmap i) := by
            rw [List.mem_filter]
            exact ⟨List.mem_range.mpr h1, h2⟩
          rw [hnil] at hmem
          exact absurd hmem (List.not_mem_nil i)
      · have hmain : vfs_tracking_get_dirty_pages true s (some f) =
            ((SQLITE_OK, countDirty t, dirtyList t), s) := by
          simp [vfs_tracking_get_dirty_pages, hg, hbm, hc]
        rw [hmain]
        refine ⟨rfl, rfl, ?_, ?_⟩
        · exact List.Pairwise.sublist (List.filter_sublist _) (List.pairwise_lt_range _)
        · intro i
          unfold dirtyList
          rw [List.mem_filter, List.mem_range]
  | none =>
    have hg := get_file_missing s f hfind
    refine ⟨freshTracker s f, by rw [hg], ?_⟩
    have hmain : vfs_tracking_get_dirty_pages true s (some f) =
        ((SQLITE_OK, 0, []), { s with files := freshTracker s f :: s.files }) := by
      simp [vfs_tracking_get_dirty_pages, hg, freshTracker]
    rw [hmain]
    refine ⟨rfl, rfl, List.Pairwise.nil, ?_⟩
    intro i
    show i ∈ ([] : List Nat) ↔ _
    simp [freshTracker, testBit_nil]

/-- C4: when markDirty grows the bitmap (required page count exceeds
totalPages) — for a well-formed tracker, under the no-uint32-overflow
bound, with the growth allocation succeeding — every previously set bit
remains set, and a page is dirty afterwards only if it was dirty before
or lies in the newly marked page interval (so newly added bit positions
start out unset). -/
theorem markDirty_growth_preserves (t : FileTracker) (offset amount : Int)
    (hwf : WF t) (ho : 0 ≤ offset) (ha : 0 < amount)
    (hb : (offset + amount - 1).toNat / t.pageSize + 32 < U32)
    (_hgrow : requiredPagesOf t offset amount > t.totalPages) :
    (∀ i : Nat, testBit t.dirtyBitmap i = true →
      testBit (markDirtyTracker true t offset amount).dirtyBitmap i = true) ∧
    (∀ i : Nat, testBit (markDirtyTracker true t offset amount).dirtyBitmap i = true →
      (testBit t.dirtyBitmap i = true ∨
        (offset.toNat / t.pageSize ≤ i ∧
          i ≤ (offset + amount - 1).toNat / t.pageSize))) := by
  constructor
  · intro i hi
    exact (markDirtyTracker_testBit t offset amount hwf ho ha hb i).mpr (Or.inl hi)
  · intro i hi
    exact (markDirtyTracker_testBit t offset amount hwf ho ha hb i).mp hi

/-- C4 (witness): page 0 is dirty, a write far beyond the current
bitmap forces growth, and page 0 still reports dirty afterwards. -/
theorem markDirty_growth_preserves_witness :
    testBit (markDirtyTracker true exTrkDirty 17000000 100).dirtyBitmap 0 = true := by
  have h := markDirty_growth_preserves exTrkDirty 17000000 100 (by decide) (by decide)
    (by decide) (by decide) (by decide)
  exact h.1 0 (by decide)

/-- C5 (counterexample): contrary to the "no-op when no tracker exists"
reading, resetDirty on a filename with no tracker does change the
registry: vfs_tracking_get_file creates the tracker before the
bitmap == NULL early-out is reached. -/
theorem resetDirty_creates_tracker_counterexample :
    (vfs_tracking_reset_dirty exStEmpty (some exName)).2 ≠ exStEmpty ∧
      ((vfs_tracking_reset_dirty exStEmpty (some exName)).2).files.length = 1 ∧
      exStEmpty.files.length = 0 := by
  refine ⟨?_, ?_, ?_⟩
  · decide
  · decide
  · decide

/-- C5 (amended): for every non-null filename resetDirty returns OK;
immediately afterwards getDirtyPages on that filename returns an empty
sequence; the filename's tracker still exists with totalPages, pageSize,
bitmapSize (backing-store word count) and isOpen unchanged and every bit
unset; and every tracker of a different normalized filename is
untouched. When no tracker existed yet, the call still returns OK and
clears nothing, but it lazily inserts a fresh empty tracker (it is not a
strict registry no-op); when the tracker exists without a bitmap the
registry is unchanged. -/
theorem resetDirty_spec (s : VfsTrackingState) (f : String) :
    (vfs_tracking_reset_dirty s (some f)).1 = SQLITE_OK ∧
    (∀ a : Bool,
      (vfs_tracking_get_dirty_pages a (vfs_tracking_reset_dirty s (some f)).2 (some f)).1 =
        (SQLITE_OK, 0, [])) ∧
    (∃ t t' : FileTracker,
      (vfs_tracking_get_file s (some f)).1 = some t ∧
      getTracker (vfs_tracking_reset_dirty s (some f)).2 (normalizeName f) = some t' ∧
      t'.filename = t.filename ∧ t'.totalPages = t.totalPages ∧
      t'.pageSize = t.pageSize ∧ t'.bitmapSize = t.bitmapSize ∧ t'.isOpen = t.isOpen ∧
      (∀ i : Nat, testBit t'.dirtyBitmap i = false)) ∧
    (∀ m : String, m ≠ normalizeName f →
      getTracker (vfs_tracking_reset_dirty s (some f)).2 m = getTracker s m) := by
  cases hfind : getTracker s (normalizeName f) with
  | none =>
    have hg := get_file_missing s f hfind
    have hreset : vfs_tracking_reset_dirty s (some f) =
        (SQLITE_OK, { s with files := freshTracker s f :: s.files }) := by
      simp [vfs_tracking_reset_dirty, hg, freshTracker]
    rw [hreset]
    refine ⟨rfl, ?_, ?_, ?_⟩
    · intro a
      exact get_dirty_pages_empty a _ f (freshTracker s f) (getTracker_cons_fresh s f)
        (fun i => by show testBit [] i = false; exact testBit_nil i)
    · exact ⟨freshTracker s f, freshTracker s f, by rw [hg], getTracker_cons_fresh s f,
        rfl, rfl, rfl, rfl, rfl, fun i => testBit_nil i⟩
    · intro m hm
      exact getTracker_cons_ne s f m hm
  | some t =>
    have hg : vfs_tracking_get_file s (some f) = (some t, s) := get_file_found s f t hfind
    have hname : t.filename = normalizeName f := getTracker_filename hfind
    by_cases hbm : t.dirtyBitmap = []
    · have hreset : vfs_tracking_reset_dirty s (some f) = (SQLITE_OK, s) := by
        simp [vfs_tracking_reset_dirty, hg, hbm]
      rw [hreset]
      refine ⟨rfl, ?_, ?_, fun m _ => rfl⟩
      · intro a
        exact get_dirty_pages_empty a s f t hfind
          (fun i => by rw [hbm]; exact testBit_nil i)
      · exact ⟨t, t, by rw [hg], hfind, rfl, rfl, rfl, rfl, rfl,
          fun i => by rw [hbm]; exact testBit_nil i⟩
    · have hreset : vfs_tracking_reset_dirty s (some f) =
          (SQLITE_OK, modifyTracker s t.filename clearTracker) := by
        simp [vfs_tracking_reset_dirty, hg, hbm]
      have hclear : ∀ u : FileTracker, (clearTracker u).filename = u.filename := fun u => rfl
      have hfind2 : getTracker s t.filename = some t := by rw [hname]; exact hfind
      have hget' : getTracker (modifyTracker s t.filename clearTracker) (normalizeName f) =
          some (clearTracker t) := by
        rw [← hname, getTracker_modify_self s t.filename clearTracker hclear, hfind2]
        rfl
      rw [hreset]
      refine ⟨rfl, ?_, ?_, ?_⟩
      · intro a
        exact get_dirty_pages_empty a _ f (clearTracker t) hget'
          (fun i => testBit_clearTracker t i)
      · exact ⟨t, clearTracker t, by rw [hg], hget', rfl, rfl, rfl, rfl, rfl,
          fun i => testBit_clearTracker t i⟩
      · intro m hm
        exact getTracker_modify_ne s t.filename m clearTracker hclear
          (by rw [hname]; exact hm)

/-- C5 (witness): resetting one file leaves the other file's tracker
exactly as it was. -/
theorem resetDirty_spec_witness :
    getTracker (vfs_tracking_reset_dirty exStDirty (some exName)).2 exOtherName =
      getTracker exStDirty exOtherName :=
  (resetDirty_spec exStDirty exName).2.2.2 exOtherName (by decide)

/-- C6: filenames equal after stripping a single leading path separator
share one tracker: after getOrCreate under the first name, getOrCreate
under the second returns the very same tracker and changes nothing;
dirty-page queries under the two names agree in every state; and closing
a handle never changes any tracker's dirty bitmap, so the shared dirty
state stays cumulative across open/close cycles until explicitly reset. -/
theorem sharedTracker_normalized (s : VfsTrackingState) (f1 f2 : String)
    (h : normalizeName f1 = normalizeName f2) :
    (vfs_tracking_get_file (vfs_tracking_get_file s (some f1)).2 (some f2) =
      ((vfs_tracking_get_file s (some f1)).1, (vfs_tracking_get_file s (some f1)).2)) ∧
    (∀ a : Bool, vfs_tracking_get_dirty_pages a s (some f1) =
      vfs_tracking_get_dirty_pages a s (some f2)) ∧
    (∀ (rc : Int) (hd : TrackingFile) (m : String),
      Option.map FileTracker.dirtyBitmap (getTracker (fileClose rc s hd).2 m) =
        Option.map FileTracker.dirtyBitmap (getTracker s m)) := by
  have hgf : vfs_tracking_get_file s (some f1) = vfs_tracking_get_file s (some f2) := by
    have hfr : freshTracker s f1 = freshTracker s f2 := by
      unfold freshTracker
      rw [h]
    cases hfind : getTracker s (normalizeName f1) with
    | some t => rw [get_file_found s f1 t hfind, get_file_found s f2 t (h ▸ hfind)]
    | none => rw [get_file_missing s f1 hfind, get_file_missing s f2 (h ▸ hfind), hfr]
  refine ⟨?_, ?_, ?_⟩
  · obtain ⟨t, ht1, htn, ht2⟩ := get_file_spec s f1
    rw [h] at ht2
    rw [get_file_found _ f2 t ht2, ht1]
  · intro a
    rcases hp : vfs_tracking_get_file s (some f1) with ⟨fst, snd⟩
    have hp2 : vfs_tracking_get_file s (some f2) = (fst, snd) := by rw [← hgf, hp]
    cases fst with
    | none => simp [vfs_tracking_get_dirty_pages, hp, hp2]
    | some t => simp [vfs_tracking_get_dirty_pages, hp, hp2]
  · intro rc hd m
    cases hhd : hd.pTracker with
    | none => simp [fileClose, hhd]
    | some n =>
      simp only [fileClose, hhd]
      by_cases hm : m = n
      · subst hm
        rw [getTracker_modify_self s m (fun u => { u with isOpen := false }) (fun u => rfl)]
        cases getTracker s m with
        | none => rfl
        | some u => rfl
      · rw [getTracker_modify_ne s n m (fun u => { u with isOpen := false }) (fun u => rfl) hm]

/-- C6 (witness): "/db.sqlite" and "db.sqlite" resolve to the same
tracker; the second getOrCreate returns the tracker the first one
created and leaves the registry unchanged. -/
theorem sharedTracker_normalized_witness :
    vfs_tracking_get_file (vfs_tracking_get_file exStEmpty (some exSlashName)).2 (some exName) =
      ((vfs_tracking_get_file exStEmpty (some exSlashName)).1,
        (vfs_tracking_get_file exStEmpty (some exSlashName)).2) :=
  (sharedTracker_normalized exStEmpty exSlashName exName (by decide)).1

/-- C7 (counterexample): truncating to newSize 2^44 with page size 4096
should — per the claim — mark exactly page floor(2^44/4096) = 2^32; the
code's uint32_t cast makes it mark page 0 instead: page 2^32 stays clean
and page 0, outside the claimed singleton set, changes state. -/
theorem fileTruncate_overflow_counterexample :
    Option.map (fun t => testBit t.dirtyBitmap exBigPage)
        (getTracker
          (fileTruncate SQLITE_OK true exStFresh { pTracker := some exName } exBigOffset).2
          exName) = some false ∧
    Option.map (fun t => testBit t.dirtyBitmap 0)
        (getTracker
          (fileTruncate SQLITE_OK true exStFresh { pTracker := some exName } exBigOffset).2
          exName) = some true ∧
    exBigOffset.toNat / 4096 = exBigPage := by
  refine ⟨?_, ?_, ?_⟩
  · decide
  · decide
  · decide

/-- C7 (amended): for a handle whose tracker exists and is well-formed,
every newSize ≥ 0 with floor(newSize/pageSize) + 32 < 2^32 (excluding
the uint32_t wrap of the counterexample), and with any needed bitmap
allocation succeeding, a successful truncate marks exactly the single
page floor(newSize/pageSize): afterwards a page of that tracker is dirty
iff it was dirty before or is that page. When the delegated truncate
fails, or the handle has no tracker, the registry is unchanged. -/
theorem fileTruncate_spec (s : VfsTrackingState) (n : String) (t : FileTracker) (size : Int)
    (ht : getTracker s n = some t) (hwf : WF t) (hs : 0 ≤ size)
    (hb : size.toNat / t.pageSize + 32 < U32) :
    (∃ t' : FileTracker,
      getTracker (fileTruncate SQLITE_OK true s { pTracker := some n } size).2 n = some t' ∧
      (∀ i : Nat, (testBit t'.dirtyBitmap i = true) ↔
        (testBit t.dirtyBitmap i = true ∨ i = size.toNat / t.pageSize))) ∧
    (∀ (rc : Int) (a : Bool), rc ≠ SQLITE_OK →
      fileTruncate rc a s { pTracker := some n } size = (rc, s)) ∧
    (∀ (rc : Int) (a : Bool), fileTruncate rc a s { pTracker := none } size = (rc, s)) := by
  refine ⟨?_, ?_, ?_⟩
  · have hmark : ∀ u : FileTracker,
        (markDirtyTracker true u size 1).filename = u.filename :=
      fun u => markDirtyTracker_filename true u size 1
    have hstate : (fileTruncate SQLITE_OK true s { pTracker := some n } size).2 =
        modifyTracker s n (fun u => markDirtyTracker true u size 1) := by
      simp [fileTruncate]
    refine ⟨markDirtyTracker true t size 1, ?_, ?_⟩
    · rw [hstate,
        getTracker_modify_self s n (fun u => markDirtyTracker true u size 1) hmark, ht]
      rfl
    · intro i
      have hsz : size + 1 - 1 = size := by omega
      have hb' : (size + 1 - 1).toNat / t.pageSize + 32 < U32 := by rw [hsz]; exact hb
      have hiff := markDirtyTracker_testBit t size 1 hwf hs (by omega) hb' i
      rw [hsz] at hiff
      rw [hiff]
      constructor
      · rintro (h1 | ⟨h2, h3⟩)
        · exact Or.inl h1
        · exact Or.inr (by omega)
      · rintro (h1 | h2)
        · exact Or.inl h1
        · exact Or.inr (by omega)
  · intro rc a hrc
    simp [fileTruncate, hrc]
  · intro rc a
    by_cases hrc : rc = SQLITE_OK
    · simp [fileTruncate, hrc]
    · simp [fileTruncate, hrc]

/-- C7 (witness): truncating the dirty example file to 5000 bytes marks
exactly page 1 in addition to the already-dirty page 0. -/
theorem fileTruncate_spec_witness :
    ∃ t' : FileTracker,
      getTracker (fileTruncate SQLITE_OK true exStDirty { pTracker := some exName } 5000).2
          exName = some t' ∧
      (∀ i : Nat, (testBit t'.dirtyBitmap i = true) ↔
        (testBit exTrkDirty.dirtyBitmap i = true ∨
          i = (5000 : Int).toNat / exTrkDirty.pageSize)) :=
  (fileTruncate_spec exStDirty exName exTrkDirty 5000 (by decide) (by decide) (by decide)
    (by decide)).1

/-- C8: when the bitmap growth inside markDirty needs a larger backing
array (the required page count exceeds totalPages and the new word count
exceeds bitmapSize) and the reallocation fails, the tracker is returned
entirely unchanged — totalPages, bitmapSize, the bitmap and every bit
keep their pre-call values, with no partial update. -/
theorem markDirty_allocFail_unchanged (t : FileTracker) (offset amount : Int)
    (ha : 0 < amount)
    (hreq : requiredPagesOf t offset amount > t.totalPages)
    (hnbs : newBitmapSizeOf t offset amount > t.bitmapSize) :
    markDirtyTracker false t offset amount = t := by
  unfold markDirtyTracker
  rw [if_neg (by omega : ¬ amount ≤ 0), if_pos ⟨hreq, hnbs, rfl⟩]

/-- C8 (witness): a 10-byte write into a tracker with no bitmap under a
failing allocator leaves the tracker exactly as it was. -/
theorem markDirty_allocFail_unchanged_witness :
    markDirtyTracker false exTrk 0 10 = exTrk :=
  markDirty_allocFail_unchanged exTrk 0 10 (by decide) (by decide) (by decide)

/-- C9: getDirtyPages never modifies dirty-tracking state: whatever the
allocator does, pRealVfs and the default page size are untouched; when a
tracker for the normalized filename already exists the whole registry is
returned unchanged; and when none exists its only effect is the lazy
insertion of a fresh tracker (totalPages 0, no bitmap, not open, default
page size) for that filename. -/
theorem getDirtyPages_frame (a : Bool) (s : VfsTrackingState) (f : String) :
    ((vfs_tracking_get_dirty_pages a s (some f)).2.pRealVfs = s.pRealVfs ∧
      (vfs_tracking_get_dirty_pages a s (some f)).2.defaultPageSize = s.defaultPageSize) ∧
    ((∃ t : FileTracker, getTracker s (normalizeName f) = some t) →
      (vfs_tracking_get_dirty_pages a s (some f)).2 = s) ∧
    (getTracker s (normalizeName f) = none →
      (vfs_tracking_get_dirty_pages a s (some f)).2 =
        { s with files := freshTracker s f :: s.files }) := by
  have hsnd := get_dirty_pages_snd a s f
  refine ⟨?_, ?_, ?_⟩
  · rw [hsnd]
    cases hfind : getTracker s (normalizeName f) with
    | some t => rw [get_file_found s f t hfind]; exact ⟨rfl, rfl⟩
    | none => rw [get_file_missing s f hfind]; exact ⟨rfl, rfl⟩
  · rintro ⟨t, hfind⟩
    rw [hsnd, get_file_found s f t hfind]
  · intro hfind
    rw [hsnd, get_file_missing s f hfind]

/-- C9 (witness): querying dirty pages of a file whose tracker exists
returns the registry unchanged. -/
theorem getDirtyPages_frame_witness :
    (vfs_tracking_get_dirty_pages true exStDirty (some exName)).2 = exStDirty :=
  (getDirtyPages_frame true exStDirty exName).2.1 ⟨exTrkDirty, by decide⟩

/-- C10: operations addressed to one filename leave every tracker with a
different normalized filename untouched: after getOrCreate, resetDirty
or a (successful or failed) open of that filename, and after close or a
write through a handle bound to that filename's tracker, getTracker
returns exactly what it returned before for every other name. -/
theorem tracker_isolation (s : VfsTrackingState) (n m : String)
    (hm : m ≠ normalizeName n) :
    (getTracker (vfs_tracking_get_file s (some n)).2 m = getTracker s m) ∧
    (getTracker (vfs_tracking_reset_dirty s (some n)).2 m = getTracker s m) ∧
    (∀ rc : Int, getTracker (trackingOpen rc s (some n)).2 m = getTracker s m) ∧
    (∀ rc : Int,
      getTracker (fileClose rc s { pTracker := some (normalizeName n) }).2 m =
        getTracker s m) ∧
    (∀ (rc : Int) (a : Bool) (amount offset : Int),
      getTracker (fileWrite rc a s { pTracker := some (normalizeName n) } amount offset).2 m =
        getTracker s m) := by
  refine ⟨getTracker_get_file_ne s n m hm, ?_, ?_, ?_, ?_⟩
  · cases hfind : getTracker s (normalizeName n) with
    | none =>
      have hg := get_file_missing s n hfind
      have hreset : vfs_tracking_reset_dirty s (some n) =
          (SQLITE_OK, { s with files := freshTracker s n :: s.files }) := by
        simp [vfs_tracking_reset_dirty, hg, freshTracker]
      rw [hreset]
      exact getTracker_cons_ne s n m hm
    | some t =>
      have hg := get_file_found s n t hfind
      have hname : t.filename = normalizeName n := getTracker_filename hfind
      by_cases hbm : t.dirtyBitmap = []
      · have hreset : vfs_tracking_reset_dirty s (some n) = (SQLITE_OK, s) := by
          simp [vfs_tracking_reset_dirty, hg, hbm]
        rw [hreset]
      · have hreset : vfs_tracking_reset_dirty s (some n) =
            (SQLITE_OK, modifyTracker s t.filename clearTracker) := by
          simp [vfs_tracking_reset_dirty, hg, hbm]
        rw [hreset]
        exact getTracker_modify_ne s t.filename m clearTracker (fun u => rfl)
          (by rw [hname]; exact hm)
  · intro rc
    by_cases hrc : rc = SQLITE_OK
    · subst hrc
      cases hfind : getTracker s (normalizeName n) with
      | some t =>
        have hg := get_file_found s n t hfind
        have hname : t.filename = normalizeName n := getTracker_filename hfind
        have hopen : (trackingOpen SQLITE_OK s (some n)).2 =
            modifyTracker s t.filename (fun u => { u with isOpen := true }) := by
          simp [trackingOpen, hg]
        rw [hopen]
        exact getTracker_modify_ne s t.filename m (fun u => { u with isOpen := true })
          (fun u => rfl) (by rw [hname]; exact hm)
      | none =>
        have hg := get_file_missing s n hfind
        have hopen : (trackingOpen SQLITE_OK s (some n)).2 =
            modifyTracker { s with files := freshTracker s n :: s.files }
              (freshTracker s n).filename (fun u => { u with isOpen := true }) := by
          simp [trackingOpen, hg]
        rw [hopen]
        rw [getTracker_modify_ne _ (freshTracker s n).filename m
          (fun u => { u with isOpen := true }) (fun u => rfl) hm]
        exact getTracker_cons_ne s n m hm
    · have hopen : (trackingOpen rc s (some n)).2 = s := by
        simp [trackingOpen, hrc]
      rw [hopen]
  · intro rc
    have hclose : (fileClose rc s { pTracker := some (normalizeName n) }).2 =
        modifyTracker s (normalizeName n) (fun u => { u with isOpen := false }) := by
      simp [fileClose]
    rw [hclose]
    exact getTracker_modify_ne s (normalizeName n) m (fun u => { u with isOpen := false })
      (fun u => rfl) hm
  · intro rc a amount offset
    by_cases hrc : rc = SQLITE_OK
    · have hwrite : (fileWrite rc a s { pTracker := some (normalizeName n) } amount offset).2 =
          modifyTracker s (normalizeName n) (fun u => markDirtyTracker a u offset amount) := by
        simp [fileWrite, hrc]
      rw [hwrite]
      exact getTracker_modify_ne s (normalizeName n) m
        (fun u => markDirtyTracker a u offset amount)
        (fun u => markDirtyTracker_filename a u offset amount) hm
    · have hwrite : (fileWrite rc a s { pTracker := some (normalizeName n) } amount offset).2 =
          s := by
        simp [fileWrite, hrc]
      rw [hwrite]

/-- C10 (witness): creating/looking up one file's tracker leaves the
other file's tracker lookup unchanged. -/
theorem tracker_isolation_witness :
    getTracker (vfs_tracking_get_file exStDirty (some exName)).2 exOtherName =
      getTracker exStDirty exOtherName :=
  (tracker_isolation exStDirty exName exOtherName (by decide)).1
